import Mathlib

/-!
Verification of `src/main/station.c` (esp32-mqtt-dht22) against its
natural-language specification.

The program is an ESP32 station that keeps a Wi-Fi link and an MQTT session
alive and periodically publishes DHT22 sensor readings.  Shared state is a
FreeRTOS event group with two bits:

  * `WIFI_CONNECTED_BIT` (BIT0) — the spec's LinkUp flag;
  * `MQTT_CONNECTED_BIT` (BIT1) — the spec's SessionUp flag.

We embed the three pieces of code that the claims are about:

  * `event_handler`        (Wi-Fi / IP events, station.c lines 44-57),
  * `mqtt_event_handler`   (MQTT events, station.c lines 62-110),
  * the body of the `DHT_task` loop (station.c lines 170-199).

Each handler is embedded as a function producing the ordered list of
side-effecting `Action`s it performs; the effect of those actions on the
event-group bits is given by `applyAction`.  On top of that, a small-step
transition system `Step` interleaves the three execution contexts (the
Wi-Fi/IP event task, the MQTT event task, and the DHT task) to settle the
reachability and interference claims.
-/

namespace Station

/-- The two bits of the FreeRTOS event group `event_group_bits`
(`WIFI_CONNECTED_BIT` = BIT0, `MQTT_CONNECTED_BIT` = BIT1). -/
inductive Flag where
  | wifi
  | mqtt
deriving DecidableEq, Repr

/-- State of the event group: one `Bool` per bit. -/
structure EventBits where
  wifiConnected : Bool
  mqttConnected : Bool
deriving DecidableEq, Repr

/-- Sensor read outcome of `readDHT()` (`DHT_OK`, `DHT_CHECKSUM_ERROR`,
`DHT_TIMEOUT_ERROR` in the DHT22 component). -/
inductive DhtStatus where
  | ok
  | checksumError
  | timeoutError
deriving DecidableEq, Repr

/-- Error classification of `MQTT_EVENT_ERROR`
(`MQTT_ERROR_TYPE_TCP_TRANSPORT` versus anything else). -/
inductive MqttErrorType where
  | tcpTransport
  | otherError
deriving DecidableEq, Repr

/-- The observable side effects a handler or task body performs, in program
order.  `waitBits f clearOnExit waitForAll timeoutTicks` embeds
`xEventGroupWaitBits(group, f, clearOnExit, waitForAll, timeout)`, with
`none` standing for `portMAX_DELAY` (block indefinitely).  `publish t p l q r`
embeds `esp_mqtt_client_publish(client, t, p, l, q, r)`. -/
inductive Action where
  | setBits (f : Flag)
  | clearBits (f : Flag)
  | waitBits (f : Flag) (clearOnExit : Bool) (waitForAll : Bool) (timeoutTicks : Option Nat)
  | wifiConnect
  | mqttReconnect
  | publish (topic : String) (payload : String) (len : Nat) (qos : Nat) (retain : Nat)
  | readDHT (result : DhtStatus)
  | delayTicks (ticks : Nat)
  | log (msg : String)
deriving DecidableEq, Repr

/-- The value of `portTICK_PERIOD_MS` for the default ESP32 FreeRTOS configuration
(`CONFIG_FREERTOS_HZ` = 100, so one tick is 10 ms).  Modelled from the
platform configuration, which is not part of `src/`. -/
def portTICK_PERIOD_MS : Nat := 10

/-- Modelled from the spec: `CONFIG_MQTT_PUB_HUM`, the fixed publish
destination name for humidity.  The concrete value lives in build-time
configuration outside `src/`; the spec requires "two publish destination
names", fixed and distinct, so it is modelled as a fixed placeholder name. -/
def MQTT_PUB_HUM : String := "station/humidity"

/-- Modelled from the spec: `CONFIG_MQTT_PUB_TEMP`, the fixed publish
destination name for temperature (see `MQTT_PUB_HUM`). -/
def MQTT_PUB_TEMP : String := "station/temperature"

/-- Set one bit of the event group (`xEventGroupSetBits`). -/
def setFlag (f : Flag) (b : EventBits) : EventBits :=
  match f with
  | .wifi => ⟨true, b.mqttConnected⟩
  | .mqtt => ⟨b.wifiConnected, true⟩

/-- Clear one bit of the event group (`xEventGroupClearBits`). -/
def clearFlag (f : Flag) (b : EventBits) : EventBits :=
  match f with
  | .wifi => ⟨false, b.mqttConnected⟩
  | .mqtt => ⟨b.wifiConnected, false⟩

/-- Effect of one action on the event-group bits.  A completed
`xEventGroupWaitBits` clears the waited bits exactly when its
`xClearOnExit` argument is `pdTRUE`; every other action besides an explicit
set/clear leaves the bits untouched. -/
def applyAction (b : EventBits) : Action → EventBits
  | .setBits f => setFlag f b
  | .clearBits f => clearFlag f b
  | .waitBits f clearOnExit _ _ => if clearOnExit then clearFlag f b else b
  | _ => b

/-- Effect of a whole action trace on the event-group bits. -/
def applyActions (b : EventBits) (l : List Action) : EventBits :=
  l.foldl applyAction b

/-- Wi-Fi / IP events dispatched to `event_handler`. -/
inductive WifiEvent where
  | staStart
  | staDisconnected
  | staGotIp
  | otherEvent
deriving DecidableEq, Repr

/-- The function `event_handler` (station.c lines 44-57): the Wi-Fi/IP event handler, as
the ordered list of side effects it performs for each event.  On
`WIFI_EVENT_STA_START` it calls `esp_wifi_connect()`; on
`WIFI_EVENT_STA_DISCONNECTED` it logs, calls `esp_wifi_connect()` and clears
`WIFI_CONNECTED_BIT`; on `IP_EVENT_STA_GOT_IP` it logs and sets
`WIFI_CONNECTED_BIT`; anything else falls through doing nothing. -/
def event_handler : WifiEvent → List Action
  | .staStart => [.wifiConnect]
  | .staDisconnected => [.log "wifi disconnected.", .wifiConnect, .clearBits .wifi]
  | .staGotIp => [.log "wifi connected.", .setBits .wifi]
  | .otherEvent => []

/-- MQTT events dispatched to `mqtt_event_handler`. -/
inductive MqttEvent where
  | connected
  | disconnected
  | subscribed (msgId : Int)
  | unsubscribed (msgId : Int)
  | published (msgId : Int)
  | dataEvent (topic : String) (payload : String)
  | errorEvent (t : MqttErrorType)
  | otherId (id : Int)
deriving DecidableEq, Repr

/-- The esp_err_t success value `ESP_OK` (0). -/
def ESP_OK : Int := 0

/-- The esp_err_t generic failure value `ESP_FAIL` (-1). -/
def ESP_FAIL : Int := -1

/-- Result of running a handler: either it returns to its event loop after
performing its actions, or `ESP_ERROR_CHECK` observed a non-`ESP_OK` value
and aborted the whole process (after the listed actions had already run). -/
inductive Outcome where
  | returned (acts : List Action)
  | aborted (acts : List Action)
deriving DecidableEq, Repr

/-- The actions a handler performed before returning or aborting. -/
def Outcome.acts : Outcome → List Action
  | .returned l => l
  | .aborted l => l

/-- Whether the handler outcome is a process abort. -/
def Outcome.isAborted : Outcome → Bool
  | .returned _ => false
  | .aborted _ => true

/-- The function `mqtt_event_handler` (station.c lines 62-110), as the outcome of one
invocation.  `reconnectResult` is the `esp_err_t` returned by
`esp_mqtt_client_reconnect` in the `MQTT_EVENT_DISCONNECTED` case; that call
is wrapped in `ESP_ERROR_CHECK`, which aborts the process on any non-`ESP_OK`
value.  The disconnected case clears `MQTT_CONNECTED_BIT`, waits (without
clear-on-exit, without timeout) for `WIFI_CONNECTED_BIT`, sleeps
`5000 / portTICK_PERIOD_MS` ticks, then issues one reconnect request.  The
`MQTT_EVENT_ERROR` case only logs (with an extra errno line for
TCP-transport errors). -/
def mqtt_event_handler (e : MqttEvent) (reconnectResult : Int) : Outcome :=
  match e with
  | .connected => .returned [.log "MQTT_EVENT_CONNECTED", .setBits .mqtt]
  | .disconnected =>
      let acts : List Action :=
        [.log "MQTT_EVENT_DISCONNECTED",
         .clearBits .mqtt,
         .waitBits .wifi false false none,
         .delayTicks (5000 / portTICK_PERIOD_MS),
         .mqttReconnect]
      if reconnectResult = ESP_OK then .returned acts else .aborted acts
  | .subscribed m =>
      .returned [.log ("MQTT_EVENT_SUBSCRIBED, msg_id=" ++ toString m),
                 .publish "/topic/qos0" "data" 0 0 0,
                 .log "sent publish successful"]
  | .unsubscribed m => .returned [.log ("MQTT_EVENT_UNSUBSCRIBED, msg_id=" ++ toString m)]
  | .published m => .returned [.log ("MQTT_EVENT_PUBLISHED, msg_id=" ++ toString m)]
  | .dataEvent t p => .returned [.log "MQTT_EVENT_DATA", .log ("TOPIC=" ++ t), .log ("DATA=" ++ p)]
  | .errorEvent .tcpTransport => .returned [.log "MQTT_EVENT_ERROR", .log "Last errno string"]
  | .errorEvent .otherError => .returned [.log "MQTT_EVENT_ERROR"]
  | .otherId i => .returned [.log ("Other event id:" ++ toString i)]

/-- Modelled from the spec: `errorHandler` of the DHT22 component (not under
`src/`).  Per the spec a sensor failure is classified and logged only: the
handler logs the error class and returns; it does not retry, abort the task
or process, or touch any shared state. -/
def errorHandler : DhtStatus → List Action
  | .ok => []
  | .checksumError => [.log "CheckSum error"]
  | .timeoutError => [.log "Sensor Timeout"]

/-- Embedding of `sprintf(buf, "%.1f", v)`: render a (rational-valued) float
rounded to the nearest tenth, with one digit after the decimal point. -/
def fmt1 (q : ℚ) : String :=
  (if ⌊q * 10 + 1 / 2⌋ < 0 then "-" else "")
    ++ toString ((⌊q * 10 + 1 / 2⌋ : ℤ).natAbs / 10) ++ "."
    ++ toString ((⌊q * 10 + 1 / 2⌋ : ℤ).natAbs % 10)

/-- One iteration of the `DHT_task` loop body (station.c lines 170-199), as
its ordered action trace.  `ret` is the value `readDHT()` returned this
cycle; `humidity` and `temperature` are the values `getHumidity()` /
`getTemperature()` return afterwards.  The body: wait (no clear-on-exit, no
timeout) for `MQTT_CONNECTED_BIT`; read the sensor; run `errorHandler` on
the result; format both values with `"%.1f"`; publish humidity then
temperature, each with `len = 0`, `qos = 1`, `retain = 0`; sleep
`60000 / portTICK_PERIOD_MS` ticks.  Nothing in the body branches on `ret`. -/
def DHT_cycle (ret : DhtStatus) (humidity temperature : ℚ) : List Action :=
  [.waitBits .mqtt false false none,
   .log "Reading DHT",
   .readDHT ret]
  ++ errorHandler ret
  ++ [.log ("Hum " ++ fmt1 humidity),
      .log ("Tmp " ++ fmt1 temperature),
      .publish MQTT_PUB_HUM (fmt1 humidity) 0 1 0,
      .log "sent publish successful",
      .publish MQTT_PUB_TEMP (fmt1 temperature) 0 1 0,
      .log "sent publish successful",
      .delayTicks (60000 / portTICK_PERIOD_MS)]

/-- Number of `esp_wifi_connect()` requests in a trace. -/
def countConnect (l : List Action) : Nat :=
  (l.filter fun a => match a with | .wifiConnect => true | _ => false).length

/-- Number of `esp_mqtt_client_reconnect` requests in a trace. -/
def countReconnect (l : List Action) : Nat :=
  (l.filter fun a => match a with | .mqttReconnect => true | _ => false).length

/-- Number of `esp_mqtt_client_publish` calls in a trace. -/
def countPublish (l : List Action) : Nat :=
  (l.filter fun a => match a with | .publish .. => true | _ => false).length

/-- The `(topic, payload, qos)` triples of the publish calls in a trace. -/
def publishesOf (l : List Action) : List (String × String × Nat) :=
  l.filterMap fun a => match a with
    | .publish t p _ q _ => some (t, p, q)
    | _ => none

/-- Whether an action writes (sets or clears) the given event-group bit.
A wait with `xClearOnExit = pdTRUE` writes the bit it waits on. -/
def writesFlag (a : Action) (f : Flag) : Bool :=
  match a with
  | .setBits g => g = f
  | .clearBits g => g = f
  | .waitBits g clearOnExit _ _ => clearOnExit && g = f
  | _ => false

/-- Program counter of the `DHT_task` loop: blocked on the
`MQTT_CONNECTED_BIT` wait, about to call `readDHT`, about to publish
humidity, about to publish temperature, or in the 60 s sleep. -/
inductive DhtPc where
  | atWait
  | atRead
  | atPubHum
  | atPubTemp
  | atDelay
deriving DecidableEq, Repr

/-- Program counter of the MQTT event task while it is inside the
`MQTT_EVENT_DISCONNECTED` case of `mqtt_event_handler`: `idle` (ready to
dispatch the next MQTT event), `waitingWifi` (blocked on the
`WIFI_CONNECTED_BIT` wait), or `cooling` (in the 5 s delay, about to call
`esp_mqtt_client_reconnect`). -/
inductive MqttPc where
  | idle
  | waitingWifi
  | cooling
deriving DecidableEq, Repr

/-- Global state of the interleaved system: the event-group bits plus the
program counters of the DHT task and of the MQTT event task.  The Wi-Fi/IP
event handler never blocks, so it needs no program counter. -/
structure Sys where
  bits : EventBits
  dht : DhtPc
  mh : MqttPc
deriving DecidableEq, Repr

/-- Labels naming which instruction fired in a step of the interleaved
system. -/
inductive Label where
  | startEvt
  | discEvt
  | gotIpEvt
  | mqttConnEvt
  | mqttDiscEvt
  | mqttWaitDone
  | mqttReconEvt
  | dhtWaitDone
  | dhtReadEvt
  | dhtPubHum
  | dhtPubTemp
  | dhtSleep
deriving DecidableEq, Repr

/-- Small-step interleaving semantics of station.c.  Wi-Fi/IP events run to
completion in their own context and may fire at any time.  MQTT events are
dispatched only while the MQTT event task is `idle`; the disconnected case
is split at its blocking points (`mqttDiscEvt` clears the session bit and
enters the wait, `mqttWaitDone` completes the wait — enabled only while
`WIFI_CONNECTED_BIT` is set, and non-consuming since `xClearOnExit` is
`pdFALSE` — and `mqttReconEvt` finishes the cooldown and issues the
reconnect).  The DHT task leaves its top-of-loop wait only while
`MQTT_CONNECTED_BIT` is set (also non-consuming), then reads, publishes
humidity, publishes temperature and sleeps; no instruction of the DHT task
re-examines the bit after `dhtWaitDone`, exactly as in the source. -/
inductive Step : Sys → Label → Sys → Prop where
  | staStart (s : Sys) : Step s .startEvt s
  | staDisc (s : Sys) :
      Step s .discEvt ⟨⟨false, s.bits.mqttConnected⟩, s.dht, s.mh⟩
  | gotIp (s : Sys) :
      Step s .gotIpEvt ⟨⟨true, s.bits.mqttConnected⟩, s.dht, s.mh⟩
  | mConn (s : Sys) (h : s.mh = .idle) :
      Step s .mqttConnEvt ⟨⟨s.bits.wifiConnected, true⟩, s.dht, s.mh⟩
  | mDisc (s : Sys) (h : s.mh = .idle) :
      Step s .mqttDiscEvt ⟨⟨s.bits.wifiConnected, false⟩, s.dht, .waitingWifi⟩
  | mWaitDone (s : Sys) (h : s.mh = .waitingWifi) (hw : s.bits.wifiConnected = true) :
      Step s .mqttWaitDone ⟨s.bits, s.dht, .cooling⟩
  | mRecon (s : Sys) (h : s.mh = .cooling) :
      Step s .mqttReconEvt ⟨s.bits, s.dht, .idle⟩
  | dWaitDone (s : Sys) (h : s.dht = .atWait) (hm : s.bits.mqttConnected = true) :
      Step s .dhtWaitDone ⟨s.bits, .atRead, s.mh⟩
  | dRead (s : Sys) (h : s.dht = .atRead) :
      Step s .dhtReadEvt ⟨s.bits, .atPubHum, s.mh⟩
  | dPubHum (s : Sys) (h : s.dht = .atPubHum) :
      Step s .dhtPubHum ⟨s.bits, .atPubTemp, s.mh⟩
  | dPubTemp (s : Sys) (h : s.dht = .atPubTemp) :
      Step s .dhtPubTemp ⟨s.bits, .atDelay, s.mh⟩
  | dSleep (s : Sys) (h : s.dht = .atDelay) :
      Step s .dhtSleep ⟨s.bits, .atWait, s.mh⟩

/-- Some step with some label. -/
def StepAny (a b : Sys) : Prop := ∃ l, Step a l b

/-- The startup state: `xEventGroupCreate` leaves both bits clear, the DHT
task starts at its top-of-loop wait, and the MQTT event task is idle. -/
def sysInit : Sys := ⟨⟨false, false⟩, .atWait, .idle⟩

/-- States reachable from startup by interleaved execution. -/
def Reachable (s : Sys) : Prop := Relation.ReflTransGen StepAny sysInit s

/-! ## Helper lemmas -/

/-- Evaluation helper for `fmt1`: once the rounded value is known and
nonnegative, the rendered string is fixed. -/
theorem fmt1_eval (q : ℚ) (n : ℤ) (h : ⌊q * 10 + 1 / 2⌋ = n) (hn : 0 ≤ n) :
    fmt1 q = toString (n.natAbs / 10) ++ "." ++ toString (n.natAbs % 10) := by
  unfold fmt1
  rw [h]
  simp [not_lt.mpr hn]

/-- The action trace of the `MQTT_EVENT_DISCONNECTED` case does not depend on
the result of the `esp_mqtt_client_reconnect` call (only the abort decision
does). -/
theorem mqtt_disconnected_acts (r : Int) :
    (mqtt_event_handler .disconnected r).acts =
      [.log "MQTT_EVENT_DISCONNECTED",
       .clearBits .mqtt,
       .waitBits .wifi false false none,
       .delayTicks (5000 / portTICK_PERIOD_MS),
       .mqttReconnect] := by
  by_cases hr : r = ESP_OK <;> simp [mqtt_event_handler, hr, Outcome.acts]

/-! ## C1 — link disconnect versus the session flag -/

/-- C1, counterexample: the claim says that when the link-state handler
processes a disconnect (LinkStatus leaves Up), SessionUp is cleared in the
same step and no state with LinkUp clear and SessionUp set follows the
disconnect step.  In the code the Wi-Fi disconnect case
(station.c lines 49-52) clears only `WIFI_CONNECTED_BIT`: from the reachable
state with both bits set, the disconnect step yields LinkUp clear while
SessionUp is still set. -/
theorem C1_counterexample :
    Reachable ⟨⟨true, true⟩, .atWait, .idle⟩ ∧
    Step ⟨⟨true, true⟩, .atWait, .idle⟩ .discEvt ⟨⟨false, true⟩, .atWait, .idle⟩ ∧
    (EventBits.mk false true).wifiConnected = false ∧
    (EventBits.mk false true).mqttConnected = true := by
  refine ⟨?_, .staDisc ⟨⟨true, true⟩, .atWait, .idle⟩, rfl, rfl⟩
  have h1 : StepAny sysInit ⟨⟨true, false⟩, .atWait, .idle⟩ := ⟨_, .gotIp sysInit⟩
  have h2 : StepAny ⟨⟨true, false⟩, .atWait, .idle⟩ ⟨⟨true, true⟩, .atWait, .idle⟩ :=
    ⟨_, .mConn ⟨⟨true, false⟩, .atWait, .idle⟩ rfl⟩
  exact Relation.ReflTransGen.tail (Relation.ReflTransGen.tail .refl h1) h2

/-- C1, amended: a link-disconnect step clears LinkUp (`WIFI_CONNECTED_BIT`)
but leaves SessionUp (`MQTT_CONNECTED_BIT`) exactly as it was; the session
flag is cleared only later, when the session transport reports its own
disconnect, so a window with LinkUp clear and SessionUp still set exists. -/
theorem C1_disconnect_clears_link_only (s s' : Sys) (h : Step s .discEvt s') :
    s'.bits.wifiConnected = false ∧ s'.bits.mqttConnected = s.bits.mqttConnected := by
  cases h
  exact ⟨rfl, rfl⟩

/-- C1, witness for `C1_disconnect_clears_link_only` at a concrete step. -/
theorem C1_witness :
    (Sys.mk ⟨false, true⟩ .atWait .idle).bits.wifiConnected = false ∧
    (Sys.mk ⟨false, true⟩ .atWait .idle).bits.mqttConnected =
      (Sys.mk ⟨true, true⟩ .atWait .idle).bits.mqttConnected :=
  C1_disconnect_clears_link_only ⟨⟨true, true⟩, .atWait, .idle⟩
    ⟨⟨false, true⟩, .atWait, .idle⟩ (.staDisc ⟨⟨true, true⟩, .atWait, .idle⟩)

/-! ## C2 — failing sensor reads and the publish calls -/

/-- C2, counterexample: the claim says a cycle whose `readDHT` fails performs
no publish calls.  In the code (station.c lines 180-192) nothing branches on
the read result: a cycle with a timeout failure still performs both publish
calls. -/
theorem C2_counterexample :
    countPublish (DHT_cycle .timeoutError (547 / 10) (213 / 10)) = 2 ∧
    countPublish (DHT_cycle .timeoutError (547 / 10) (213 / 10)) ≠ 0 :=
  ⟨rfl, by decide⟩

/-- C2, amended: a failing read never aborts the schedule — the error is
classified and logged and every cycle ends with the fixed 60 s sleep and
continues — but the cycle performs its two publish calls regardless of the
read result, publishing whatever values the sensor module currently
returns. -/
theorem C2_cycle_always_publishes (ret : DhtStatus) (h t : ℚ) :
    countPublish (DHT_cycle ret h t) = 2 ∧
    (DHT_cycle ret h t).getLast? = some (.delayTicks (60000 / portTICK_PERIOD_MS)) := by
  cases ret <;> exact ⟨rfl, rfl⟩

/-! ## C3 — publishing while SessionUp is clear -/

/-- C3, counterexample: the claim says the scheduler never invokes publish
while SessionUp is clear, including between the top-of-loop wait and the two
publish calls.  The wait (station.c lines 171-177) is the only check: after
the DHT task passes it, a concurrent MQTT disconnect can clear
`MQTT_CONNECTED_BIT`, and the task still publishes.  Concretely: from
startup, got-IP, MQTT connect, the task passes the wait, MQTT disconnects
(clearing SessionUp), the task reads — reaching a state from which the
humidity publish fires with SessionUp clear. -/
theorem C3_counterexample :
    Reachable ⟨⟨true, false⟩, .atPubHum, .waitingWifi⟩ ∧
    Step ⟨⟨true, false⟩, .atPubHum, .waitingWifi⟩ .dhtPubHum
      ⟨⟨true, false⟩, .atPubTemp, .waitingWifi⟩ ∧
    (EventBits.mk true false).mqttConnected = false := by
  refine ⟨?_, .dPubHum ⟨⟨true, false⟩, .atPubHum, .waitingWifi⟩ rfl, rfl⟩
  have h1 : StepAny sysInit ⟨⟨true, false⟩, .atWait, .idle⟩ := ⟨_, .gotIp sysInit⟩
  have h2 : StepAny ⟨⟨true, false⟩, .atWait, .idle⟩ ⟨⟨true, true⟩, .atWait, .idle⟩ :=
    ⟨_, .mConn ⟨⟨true, false⟩, .atWait, .idle⟩ rfl⟩
  have h3 : StepAny ⟨⟨true, true⟩, .atWait, .idle⟩ ⟨⟨true, true⟩, .atRead, .idle⟩ :=
    ⟨_, .dWaitDone ⟨⟨true, true⟩, .atWait, .idle⟩ rfl rfl⟩
  have h4 : StepAny ⟨⟨true, true⟩, .atRead, .idle⟩ ⟨⟨true, false⟩, .atRead, .waitingWifi⟩ :=
    ⟨_, .mDisc ⟨⟨true, true⟩, .atRead, .idle⟩ rfl⟩
  have h5 : StepAny ⟨⟨true, false⟩, .atRead, .waitingWifi⟩
      ⟨⟨true, false⟩, .atPubHum, .waitingWifi⟩ :=
    ⟨_, .dRead ⟨⟨true, false⟩, .atRead, .waitingWifi⟩ rfl⟩
  exact Relation.ReflTransGen.tail (Relation.ReflTransGen.tail (Relation.ReflTransGen.tail
    (Relation.ReflTransGen.tail (Relation.ReflTransGen.tail .refl h1) h2) h3) h4) h5

/-- C3, amended: the scheduler begins a cycle only through the top-of-loop
wait, and that wait completes only while SessionUp is set at that very step;
the flag is not re-examined afterwards, so a concurrent session disconnect
between the wait and the publishes can make a publish happen with SessionUp
clear. -/
theorem C3_wait_observes_session_flag (s s' : Sys) (h : Step s .dhtWaitDone s') :
    s.bits.mqttConnected = true := by
  cases h
  assumption

/-- C3, witness for `C3_wait_observes_session_flag` at a concrete step. -/
theorem C3_witness : (Sys.mk ⟨true, true⟩ .atWait .idle).bits.mqttConnected = true :=
  C3_wait_observes_session_flag ⟨⟨true, true⟩, .atWait, .idle⟩
    ⟨⟨true, true⟩, .atRead, .idle⟩
    (.dWaitDone ⟨⟨true, true⟩, .atWait, .idle⟩ rfl rfl)

/-! ## C4 — error outcomes and termination -/

/-- C4, counterexample: the claim says no error outcome (including a session
reconnect failure) terminates the process or a task.  In the disconnect case
the reconnect call is wrapped in `ESP_ERROR_CHECK` (station.c line 82): when
`esp_mqtt_client_reconnect` returns `ESP_FAIL` the process aborts. -/
theorem C4_counterexample :
    (mqtt_event_handler .disconnected ESP_FAIL).isAborted = true := rfl

/-- C4, amended: the Wi-Fi handler, the other MQTT handler cases and the
sensor task always return into their loops, and the session-disconnect path
also returns whenever the reconnect call succeeds; the sole terminating path
is the `ESP_ERROR_CHECK` around `esp_mqtt_client_reconnect`, which aborts the
whole process exactly when the reconnect call fails. -/
theorem C4_abort_only_on_reconnect_failure (e : MqttEvent) (r : Int) :
    (mqtt_event_handler e r).isAborted = true ↔ e = .disconnected ∧ r ≠ ESP_OK := by
  cases e with
  | disconnected =>
      by_cases hr : r = ESP_OK <;>
        simp [mqtt_event_handler, hr, Outcome.isAborted]
  | errorEvent t => cases t <;> simp [mqtt_event_handler, Outcome.isAborted]
  | connected => simp [mqtt_event_handler, Outcome.isAborted]
  | subscribed m => simp [mqtt_event_handler, Outcome.isAborted]
  | unsubscribed m => simp [mqtt_event_handler, Outcome.isAborted]
  | published m => simp [mqtt_event_handler, Outcome.isAborted]
  | dataEvent t p => simp [mqtt_event_handler, Outcome.isAborted]
  | otherId i => simp [mqtt_event_handler, Outcome.isAborted]

/-! ## C5 — the session-closed reconnect sequence -/

/-- C5, counterexample: the claim says the sequence (clear SessionUp, wait
for LinkUp, 5 s cooldown, one re-establish) runs once per close/error event.
A session error event (`MQTT_EVENT_ERROR`, station.c lines 100-105) performs
none of it: it only logs, clears nothing and issues zero reconnect
requests. -/
theorem C5_counterexample :
    (mqtt_event_handler (.errorEvent .tcpTransport) ESP_OK).acts =
      [.log "MQTT_EVENT_ERROR", .log "Last errno string"] ∧
    countReconnect (mqtt_event_handler (.errorEvent .tcpTransport) ESP_OK).acts = 0 ∧
    ((mqtt_event_handler (.errorEvent .tcpTransport) ESP_OK).acts.all
      fun a => !(writesFlag a .mqtt)) = true :=
  ⟨rfl, rfl, rfl⟩

/-- C5, amended: per session close (disconnect) event the handler performs
exactly, in order: clear SessionUp, then a non-consuming wait with no
timeout for LinkUp, then the fixed 5-second cooldown, then exactly one
re-establish request; session error events are only logged and trigger no
part of that sequence. -/
theorem C5_close_sequence (r : Int) (t : MqttErrorType) :
    (mqtt_event_handler .disconnected r).acts =
      [.log "MQTT_EVENT_DISCONNECTED",
       .clearBits .mqtt,
       .waitBits .wifi false false none,
       .delayTicks (5000 / portTICK_PERIOD_MS),
       .mqttReconnect] ∧
    countReconnect (mqtt_event_handler .disconnected r).acts = 1 ∧
    5000 / portTICK_PERIOD_MS * portTICK_PERIOD_MS = 5000 ∧
    countReconnect (mqtt_event_handler (.errorEvent t) r).acts = 0 := by
  refine ⟨mqtt_disconnected_acts r, ?_, rfl, ?_⟩
  · rw [mqtt_disconnected_acts r]
    rfl
  · cases t <;> rfl

/-! ## C6 — out-of-order address-acquired notification -/

/-- C6, counterexample: the claim says an address-acquired notification
arriving while the link is Down with no prior start request does not set
LinkUp.  The handler (station.c lines 53-56) sets `WIFI_CONNECTED_BIT`
unconditionally: a single got-IP step from the startup state (no start ever
requested) already sets it. -/
theorem C6_counterexample :
    sysInit.bits.wifiConnected = false ∧
    Step sysInit .gotIpEvt ⟨⟨true, false⟩, .atWait, .idle⟩ ∧
    (EventBits.mk true false).wifiConnected = true :=
  ⟨rfl, .gotIp sysInit, rfl⟩

/-- C6, amended: the got-IP case sets LinkUp unconditionally, from any state
— including Down with no prior start request; out-of-order notifications are
neither ignored nor queued. -/
theorem C6_got_ip_sets_link_unconditionally (s s' : Sys) (h : Step s .gotIpEvt s') :
    s'.bits.wifiConnected = true := by
  cases h
  rfl

/-- C6, witness for `C6_got_ip_sets_link_unconditionally` at the startup
state. -/
theorem C6_witness : (Sys.mk ⟨true, false⟩ .atWait .idle).bits.wifiConnected = true :=
  C6_got_ip_sets_link_unconditionally sysInit ⟨⟨true, false⟩, .atWait, .idle⟩
    (.gotIp sysInit)

/-! ## C7 — repeated disconnect notifications -/

/-- C7, counterexample: the claim says repeated `on_disconnected` events
while already Down leave the state Down (true) and issue at most one connect
request per Up-to-Down transition, with repeats not multiplying connect
requests.  In the code every disconnect event calls `esp_wifi_connect()`
(station.c line 51): two repeated events from the Down state — zero
Up-to-Down transitions — issue two connect requests. -/
theorem C7_counterexample :
    applyActions ⟨false, false⟩ (event_handler .staDisconnected) = ⟨false, false⟩ ∧
    countConnect (event_handler .staDisconnected) = 1 ∧
    countConnect (event_handler .staDisconnected ++ event_handler .staDisconnected) = 2 :=
  ⟨rfl, rfl, rfl⟩

/-- C7, amended: handling a disconnect notification is idempotent on the
flags — from any state it leaves LinkUp clear and SessionUp untouched, so
repeats while Down keep the state at Down — but each notification issues
exactly one connect request, so connect requests scale with the number of
disconnect events, not with Up-to-Down transitions. -/
theorem C7_disconnect_idempotent_state_one_connect_per_event (b : EventBits) :
    applyActions b (event_handler .staDisconnected) = ⟨false, b.mqttConnected⟩ ∧
    countConnect (event_handler .staDisconnected) = 1 :=
  ⟨rfl, rfl⟩

/-! ## C8 — formatting and publishing of a successful reading -/

/-- C8: on a successful reading the cycle publishes exactly two messages —
the humidity then the temperature, each formatted by `"%.1f"` (decimal text
rounded to one decimal place), each to its own fixed destination, each with
QoS 1 — the two destination names are distinct, and the formatter sends
21.3 to "21.3" and 54.7 to "54.7" (and rounds, e.g. 21.56 to "21.6"). -/
theorem C8_success_cycle_publishes_formatted (h t : ℚ) :
    publishesOf (DHT_cycle .ok h t) =
      [(MQTT_PUB_HUM, fmt1 h, 1), (MQTT_PUB_TEMP, fmt1 t, 1)] ∧
    MQTT_PUB_HUM ≠ MQTT_PUB_TEMP ∧
    fmt1 (213 / 10) = "21.3" ∧
    fmt1 (547 / 10) = "54.7" ∧
    fmt1 (2156 / 100) = "21.6" := by
  refine ⟨rfl, by decide, ?_, ?_, ?_⟩
  · have hf : ⌊(213 / 10 : ℚ) * 10 + 1 / 2⌋ = (213 : ℤ) := by
      rw [Int.floor_eq_iff]
      norm_num
    rw [fmt1_eval _ _ hf (by norm_num)]
    rfl
  · have hf : ⌊(547 / 10 : ℚ) * 10 + 1 / 2⌋ = (547 : ℤ) := by
      rw [Int.floor_eq_iff]
      norm_num
    rw [fmt1_eval _ _ hf (by norm_num)]
    rfl
  · have hf : ⌊(2156 / 100 : ℚ) * 10 + 1 / 2⌋ = (216 : ℤ) := by
      rw [Int.floor_eq_iff]
      norm_num
    rw [fmt1_eval _ _ hf (by norm_num)]
    rfl

/-! ## C9 — single writer per flag -/

/-- C9: the Wi-Fi/IP handler never writes the session flag, the MQTT handler
never writes the link flag (its wait on it is non-consuming), and the DHT
task writes neither flag — every flag has a single writer. -/
theorem C9_single_writer_per_flag (we : WifiEvent) (me : MqttEvent) (r : Int)
    (ret : DhtStatus) (h t : ℚ) :
    ((event_handler we).all fun a => !(writesFlag a .mqtt)) = true ∧
    ((mqtt_event_handler me r).acts.all fun a => !(writesFlag a .wifi)) = true ∧
    ((DHT_cycle ret h t).all fun a => !(writesFlag a .wifi) && !(writesFlag a .mqtt)) = true := by
  refine ⟨?_, ?_, ?_⟩
  · cases we <;> rfl
  · cases me with
    | disconnected => rw [mqtt_disconnected_acts r]; rfl
    | errorEvent t2 => cases t2 <;> rfl
    | connected => rfl
    | subscribed m => rfl
    | unsubscribed m => rfl
    | published m => rfl
    | dataEvent tp p => rfl
    | otherId i => rfl
  · cases ret <;> rfl

/-! ## C10 — waits are non-consuming -/

/-- C10: both blocking waits — the DHT task's wait for the session flag and
the MQTT disconnect path's wait for the link flag — pass `pdFALSE` for
`xClearOnExit`, and a completed wait with clear-on-exit disabled leaves the
event-group bits exactly as they were, whatever flag is waited on. -/
theorem C10_waits_nonconsuming (ret : DhtStatus) (h t : ℚ) (r : Int)
    (b : EventBits) (f : Flag) (wfa : Bool) (tm : Option Nat) :
    (DHT_cycle ret h t).head? = some (.waitBits .mqtt false false none) ∧
    (Action.waitBits .wifi false false none) ∈ (mqtt_event_handler .disconnected r).acts ∧
    applyAction b (.waitBits f false wfa tm) = b := by
  refine ⟨rfl, ?_, rfl⟩
  rw [mqtt_disconnected_acts r]
  simp

end Station
